import Mathlib

/-!
# GFS2 super-block operations (`gfs2/ops_super.c`)

A shallow embedding of the super-block operations of the GFS2 kernel module:
`gfs2_put_super`, `gfs2_write_super_lockfs`, `gfs2_statfs`, `gfs2_remount_fs`
and `gfs2_clear_inode`.

Every C function is a Lean function on an explicit state.  A call into another
compilation unit (glock layer, log, quota, VFS, scheduler) is recorded as one
`Call` event in a trace, in program order, the way a mock of that unit would
see it.  Results returned by such units are supplied by a `Collab` record (one
answer per state) or, where the same function is called repeatedly in a loop,
by a script of answers.
-/

namespace Gfs2

/-! ## Data model -/

/-- Bit names of `sd_flags` used in this file (an enum of the in-core header). -/
inductive sd_flag where
  | SDF_INODED_RUN
  | SDF_QUOTAD_RUN
  | SDF_LOGD_RUN
  | SDF_RECOVERD_RUN
  | SDF_GLOCKD_RUN
  | SDF_SCAND_RUN
  | SDF_ROFS
  | SDF_NOATIME
  deriving DecidableEq, Repr

/-- The `struct gfs2_holder` members of `struct gfs2_sbd` passed by address. -/
inductive sd_holder where
  | sd_freeze_gh
  | sd_journal_gh
  | sd_jinode_gh
  | sd_ir_gh
  | sd_ut_gh
  | sd_qc_gh
  | sd_live_gh
  deriving DecidableEq, Repr

/-- A glock argument: one of the two glock members of the super block, or the
glock with a given identity reached through an inode record. -/
inductive glock_arg where
  | sd_trans_gl
  | sd_rename_gl
  | gl (id : Nat)
  deriving DecidableEq, Repr

/-- An inode-record argument: one of the inode members of the super block, or
the record (identified by its number) attached to a VFS inode. -/
inductive inode_arg where
  | sd_master_dir
  | sd_jindex
  | sd_inum_inode
  | sd_rindex
  | sd_quota_inode
  | sd_root_inode
  | sd_ir_inode
  | sd_ut_inode
  | sd_qc_inode
  | ip (num : Nat)
  deriving DecidableEq, Repr

/-- The service threads woken with `wake_up_process`. -/
inductive sd_process where
  | sd_inoded_process
  | sd_quotad_process
  | sd_logd_process
  | sd_recoverd_process
  | sd_scand_process
  deriving DecidableEq, Repr

/-- One externally visible step of the functions of this file: a call into
code outside it (with the arguments that identify its target and, where the
result is an error code that is tested, the value returned), or a store into a
record shared with other code. -/
inductive Call where
  | atomic_inc_sd_ops_super
  | gfs2_proc_fs_del
  | down_sd_freeze_lock
  | up_sd_freeze_lock
  | down_sd_thread_lock
  | up_sd_thread_lock
  | set_bit (f : sd_flag)
  | clear_bit (f : sd_flag)
  | wake_up_process (p : sd_process)
  | wake_up_sd_reclaim_wq
  | wait_for_completion
  | gfs2_quota_sync
  | gfs2_make_fs_ro (ret : Int)
  | gfs2_make_fs_rw (ret : Int)
  | gfs2_io_error
  | gfs2_inode_put (i : inode_arg)
  | gfs2_glock_put (g : glock_arg)
  | gfs2_glock_dq_uninit (h : sd_holder)
  | gfs2_glock_schedule_for_reclaim (g : glock_arg)
  | gfs2_clear_rgrpd
  | gfs2_jindex_free
  | gfs2_gl_hash_clear
  | gfs2_lm_unmount
  | invalidate_inodes
  | yield
  | vfree
  | set_v2sdp_NULL
  | gfs2_freeze_fs (ret : Int)
  | printk_waiting_for_recovery
  | printk_error_freezing (err : Int)
  | printk_retrying
  | set_current_state_TASK_UNINTERRUPTIBLE
  | schedule_timeout_HZ
  | spin_lock_i_lock (num : Nat)
  | spin_unlock_i_lock (num : Nat)
  | set_i_vnode_NULL (num : Nat)
  | set_v2ip_NULL (ino : Nat)
  deriving DecidableEq, Repr

/-- Mount arguments (`struct gfs2_args`); `ar_spectator` is a C `int` tested
for being non-zero. -/
structure gfs2_args where
  ar_spectator : Int
  deriving DecidableEq, Repr

/-- The members of `struct gfs2_sbd` that this file reads or writes, together
with the addresses held in its system-object pointer members (which this file
only passes on).  `sd_glockd_num`, `sd_freeze_count` are `unsigned int`,
`sd_ops_super` is a 32-bit atomic counter. -/
structure gfs2_sbd where
  sd_flags : sd_flag → Bool
  sd_args : gfs2_args
  sd_freeze_count : Nat
  sd_glockd_num : Nat
  sd_ops_super : Nat
  sb_bsize : Nat
  sd_master_dir : Nat
  sd_jindex : Nat
  sd_inum_inode : Nat
  sd_rindex : Nat
  sd_quota_inode : Nat
  sd_root_inode : Nat
  sd_ir_inode : Nat
  sd_ut_inode : Nat
  sd_qc_inode : Nat
  sd_trans_gl : Nat
  sd_rename_gl : Nat

/-- The VFS super block: the attached GFS2 state (`get_v2sdp`), and the number
of `invalidate_inodes` passes that will still report busy inodes before the
inode cache of this super block is empty. -/
structure super_block where
  s_fs_info : Option gfs2_sbd
  s_busy_passes : Nat

/-- Usage summary filled in by the allocator (`struct gfs2_statfs`, 64-bit
unsigned members). -/
structure struct_gfs2_statfs where
  sg_total : Nat
  sg_free : Nat
  sg_dinodes : Nat
  deriving DecidableEq, Repr

/-- The members of `struct kstatfs` written by `gfs2_statfs`. -/
structure kstatfs where
  f_type : Nat
  f_bsize : Nat
  f_blocks : Nat
  f_bfree : Nat
  f_bavail : Nat
  f_files : Nat
  f_ffree : Nat
  f_namelen : Nat
  deriving DecidableEq, Repr

/-- The in-core inode record (`struct gfs2_inode`): its number, the glock
protecting it (`i_gl`), the glock of its iopen holder, and the back pointer
to the VFS inode (`i_vnode`). -/
structure gfs2_inode where
  i_num : Nat
  i_gl : Nat
  i_iopen_gl : Nat
  i_vnode : Option Nat
  deriving DecidableEq, Repr

/-- A VFS inode: its number and the attached in-core record (`get_v2ip`). -/
structure inode where
  i_ino : Nat
  v2ip : Option gfs2_inode
  deriving DecidableEq, Repr

/-- What this file takes from outside: constants of kernel headers and the
answers of the collaborators whose result is tested.  A transition returns its
error code and the `sd_flags` word it leaves behind. -/
structure Collab where
  MS_RDONLY : Nat
  MS_NOATIME : Nat
  MS_NODIRATIME : Nat
  EBUSY : Int
  GFS2_MAGIC : Nat
  GFS2_FNAMESIZE : Nat
  gfs2_make_fs_ro : gfs2_sbd → Int × (sd_flag → Bool)
  gfs2_make_fs_rw : gfs2_sbd → Int × (sd_flag → Bool)
  gfs2_statfs_i : gfs2_sbd → Int × struct_gfs2_statfs

/-- The state threaded through a function body: the super-block data and the
calls made so far. -/
structure World where
  sdp : gfs2_sbd
  trace : List Call

/-! ## Primitive steps -/

/-- Record a call. -/
def call (c : Call) (w : World) : World :=
  { w with trace := w.trace ++ [c] }

/-- The flag word with bit `f` given the value `b`. -/
def write_bit (flags : sd_flag → Bool) (f : sd_flag) (b : Bool) : sd_flag → Bool :=
  fun g => if g = f then b else flags g

/-- Kernel `set_bit(f, &sdp->sd_flags)`. -/
def set_bit (f : sd_flag) (w : World) : World :=
  { sdp := { w.sdp with sd_flags := write_bit w.sdp.sd_flags f true },
    trace := w.trace ++ [Call.set_bit f] }

/-- Kernel `clear_bit(f, &sdp->sd_flags)`. -/
def clear_bit (f : sd_flag) (w : World) : World :=
  { sdp := { w.sdp with sd_flags := write_bit w.sdp.sd_flags f false },
    trace := w.trace ++ [Call.clear_bit f] }

/-- Kernel `test_bit(f, &sdp->sd_flags)`. -/
def test_bit (f : sd_flag) (w : World) : Bool :=
  w.sdp.sd_flags f

/-- The super-block data after `atomic_inc(&sdp->sd_ops_super)`. -/
def inc_ops_super (sdp : gfs2_sbd) : gfs2_sbd :=
  { sdp with sd_ops_super := (sdp.sd_ops_super + 1) % 2 ^ 32 }

/-- Statement `atomic_inc(&sdp->sd_ops_super)`. -/
def atomic_inc_sd_ops_super (w : World) : World :=
  { sdp := inc_ops_super w.sdp, trace := w.trace ++ [Call.atomic_inc_sd_ops_super] }

/-- Stop one singleton service thread: take the thread lock, clear the run
flag, wake the thread, drop the lock, wait for the completion. -/
def kill_thread (f : sd_flag) (p : sd_process) (w : World) : World :=
  let w := call .down_sd_thread_lock w
  let w := clear_bit f w
  let w := call (.wake_up_process p) w
  let w := call .up_sd_thread_lock w
  call .wait_for_completion w

/-- Loop `while (sdp->sd_glockd_num--) wait_for_completion(...)`, started with
`sd_glockd_num = n`.  The test that ends the loop still decrements the
unsigned counter, which wraps. -/
def while_glockd_num : Nat → World → World
  | 0, w => { w with sdp := { w.sdp with sd_glockd_num := 2 ^ 32 - 1 } }
  | n + 1, w =>
    while_glockd_num n
      (call .wait_for_completion { w with sdp := { w.sdp with sd_glockd_num := n } })

/-- Loop `while (invalidate_inodes(sb)) yield();` where `busy` passes still
find inodes in use (the pass returns non-zero) before one returns 0. -/
def while_invalidate_inodes : Nat → World → World
  | 0, w => call .invalidate_inodes w
  | busy + 1, w =>
    while_invalidate_inodes busy (call .yield (call .invalidate_inodes w))

/-! ## `gfs2_put_super` -/

/-- Unmount the filesystem.  Returns the super block afterwards and the calls
made, in order. -/
def gfs2_put_super (K : Collab) (sb : super_block) : super_block × List Call :=
  match sb.s_fs_info with
  | none => (sb, [])
  | some sdp =>
    let w : World := { sdp := sdp, trace := [] }
    let w := atomic_inc_sd_ops_super w
    let w := call .gfs2_proc_fs_del w
    -- Unfreeze the filesystem, if we need to
    let w := call .down_sd_freeze_lock w
    let w := if w.sdp.sd_freeze_count ≠ 0 then
        call (.gfs2_glock_dq_uninit .sd_freeze_gh) w
      else w
    let w := call .up_sd_freeze_lock w
    -- Kill off the inode, quota, log and recoverd threads
    let w := kill_thread .SDF_INODED_RUN .sd_inoded_process w
    let w := kill_thread .SDF_QUOTAD_RUN .sd_quotad_process w
    let w := kill_thread .SDF_LOGD_RUN .sd_logd_process w
    let w := kill_thread .SDF_RECOVERD_RUN .sd_recoverd_process w
    -- Kill off the glockd threads
    let w := clear_bit .SDF_GLOCKD_RUN w
    let w := call .wake_up_sd_reclaim_wq w
    let w := while_glockd_num w.sdp.sd_glockd_num w
    -- Kill off the scand thread
    let w := kill_thread .SDF_SCAND_RUN .sd_scand_process w
    let w := if test_bit .SDF_ROFS w = false then
        let w := call .gfs2_quota_sync w
        let r := K.gfs2_make_fs_ro w.sdp
        let error := r.1
        let w := call (.gfs2_make_fs_ro error) { w with sdp := { w.sdp with sd_flags := r.2 } }
        if error ≠ 0 then call .gfs2_io_error w else w
      else w
    -- Release stuff
    let w := call (.gfs2_inode_put .sd_master_dir) w
    let w := call (.gfs2_inode_put .sd_jindex) w
    let w := call (.gfs2_inode_put .sd_inum_inode) w
    let w := call (.gfs2_inode_put .sd_rindex) w
    let w := call (.gfs2_inode_put .sd_quota_inode) w
    let w := call (.gfs2_inode_put .sd_root_inode) w
    let w := call (.gfs2_glock_put .sd_trans_gl) w
    let w := call (.gfs2_glock_put .sd_rename_gl) w
    let w := if w.sdp.sd_args.ar_spectator = 0 then
        let w := call (.gfs2_glock_dq_uninit .sd_journal_gh) w
        let w := call (.gfs2_glock_dq_uninit .sd_jinode_gh) w
        let w := call (.gfs2_glock_dq_uninit .sd_ir_gh) w
        let w := call (.gfs2_glock_dq_uninit .sd_ut_gh) w
        let w := call (.gfs2_glock_dq_uninit .sd_qc_gh) w
        let w := call (.gfs2_inode_put .sd_ir_inode) w
        let w := call (.gfs2_inode_put .sd_ut_inode) w
        call (.gfs2_inode_put .sd_qc_inode) w
      else w
    let w := call (.gfs2_glock_dq_uninit .sd_live_gh) w
    let w := call .gfs2_clear_rgrpd w
    let w := call .gfs2_jindex_free w
    -- Take apart glock structures and buffer lists
    let w := call .gfs2_gl_hash_clear w
    -- Unmount the locking protocol
    let w := call .gfs2_lm_unmount w
    -- Get rid of any extra inodes
    let w := while_invalidate_inodes sb.s_busy_passes w
    let w := call .vfree w
    let w := call .set_v2sdp_NULL w
    ({ s_fs_info := none, s_busy_passes := 0 }, w.trace)

/-! ## `gfs2_write_super_lockfs` -/

/-- The retry loop `for (;;)` of `gfs2_write_super_lockfs`.  The list is the
script of values `gfs2_freeze_fs` returns on its successive calls; when the
script is used up before a call returned 0 the run is not determined. -/
def freeze_loop (K : Collab) : List Int → World → Option World
  | [], _ => none
  | error :: script, w =>
    let w := call (.gfs2_freeze_fs error) w
    if error = 0 then some w
    else
      let w := if error = -K.EBUSY then
          call .printk_waiting_for_recovery w
        else
          call (.printk_error_freezing error) w
      let w := call .printk_retrying w
      let w := call .set_current_state_TASK_UNINTERRUPTIBLE w
      let w := call .schedule_timeout_HZ w
      freeze_loop K script w

/-- Prevent further writes to the filesystem.  Returns the super-block data
afterwards and the calls made, or `none` when the script runs out. -/
def gfs2_write_super_lockfs (K : Collab) (freeze_script : List Int) (sdp : gfs2_sbd) :
    Option (gfs2_sbd × List Call) :=
  let w : World := { sdp := sdp, trace := [] }
  let w := atomic_inc_sd_ops_super w
  (freeze_loop K freeze_script w).map fun w => (w.sdp, w.trace)

/-! ## `gfs2_statfs` -/

/-- Gather and return stats about the filesystem.  Returns the error code, the
buffer and the super-block data afterwards. -/
def gfs2_statfs (K : Collab) (sdp : gfs2_sbd) (buf : kstatfs) : Int × kstatfs × gfs2_sbd :=
  let sdp := inc_ops_super sdp
  let r := K.gfs2_statfs_i sdp
  let error := r.1
  let sg := r.2
  if error ≠ 0 then (error, buf, sdp)
  else
    (0,
     { f_type := K.GFS2_MAGIC
       f_bsize := sdp.sb_bsize
       f_blocks := sg.sg_total
       f_bfree := sg.sg_free
       f_bavail := sg.sg_free
       f_files := (sg.sg_dinodes + sg.sg_free) % 2 ^ 64
       f_ffree := sg.sg_free
       f_namelen := K.GFS2_FNAMESIZE },
     sdp)

/-! ## `gfs2_remount_fs` -/

/-- The result of `gfs2_remount_fs`: the returned errno, the flag word left in
`*flags`, the super-block data afterwards and the calls made. -/
structure remount_result where
  error : Int
  flags : Nat
  sdp : gfs2_sbd
  trace : List Call

/-- Called when the FS is remounted.  `flags` is the bit pattern of `*flags`
on entry. -/
def gfs2_remount_fs (K : Collab) (sdp : gfs2_sbd) (flags : Nat) : remount_result :=
  let w : World := { sdp := sdp, trace := [] }
  let w := atomic_inc_sd_ops_super w
  let w := if flags &&& (K.MS_NOATIME ||| K.MS_NODIRATIME) ≠ 0 then
      set_bit .SDF_NOATIME w
    else
      clear_bit .SDF_NOATIME w
  let r : Int × Nat × World :=
    if w.sdp.sd_args.ar_spectator ≠ 0 then
      (0, flags ||| K.MS_RDONLY, w)
    else if flags &&& K.MS_RDONLY ≠ 0 then
      if test_bit .SDF_ROFS w = false then
        let t := K.gfs2_make_fs_ro w.sdp
        (t.1, flags, call (.gfs2_make_fs_ro t.1) { w with sdp := { w.sdp with sd_flags := t.2 } })
      else (0, flags, w)
    else if flags &&& K.MS_RDONLY = 0 ∧ test_bit .SDF_ROFS w = true then
      let t := K.gfs2_make_fs_rw w.sdp
      (t.1, flags, call (.gfs2_make_fs_rw t.1) { w with sdp := { w.sdp with sd_flags := t.2 } })
    else (0, flags, w)
  -- Don't let the VFS update atimes.  GFS2 handles this itself.
  { error := r.1
    flags := r.2.1 ||| (K.MS_NOATIME ||| K.MS_NODIRATIME)
    sdp := r.2.2.sdp
    trace := r.2.2.trace }

/-! ## `gfs2_clear_inode` -/

/-- The result of `gfs2_clear_inode`: the super-block data, the VFS inode and
the in-core record (when there was one) afterwards, and the steps made. -/
structure clear_inode_result where
  sdp : gfs2_sbd
  inode : inode
  ip : Option gfs2_inode
  trace : List Call

/-- Deallocate an inode when VFS is done with it. -/
def gfs2_clear_inode (sdp : gfs2_sbd) (inode : inode) : clear_inode_result :=
  let w : World := { sdp := sdp, trace := [] }
  let w := atomic_inc_sd_ops_super w
  match inode.v2ip with
  | some ip =>
    let w := call (.spin_lock_i_lock ip.i_num) w
    let w := call (.set_i_vnode_NULL ip.i_num) w
    let ip := { ip with i_vnode := none }
    let w := call (.set_v2ip_NULL inode.i_ino) w
    let inode := { inode with v2ip := none }
    let w := call (.spin_unlock_i_lock ip.i_num) w
    let w := call (.gfs2_glock_schedule_for_reclaim (.gl ip.i_gl)) w
    let w := call (.gfs2_inode_put (.ip ip.i_num)) w
    { sdp := w.sdp, inode := inode, ip := some ip, trace := w.trace }
  | none =>
    { sdp := w.sdp, inode := inode, ip := none, trace := w.trace }

/-! ## Vocabulary of the properties -/

/-- Steps that stop a service loop: clearing a flag, waking a thread or the
reclaim queue, waiting for a completion. -/
def service_event : Call → Bool
  | .clear_bit _ => true
  | .wake_up_process _ => true
  | .wake_up_sd_reclaim_wq => true
  | .wait_for_completion => true
  | _ => false

/-- The flag cleared by a step, if it clears one. -/
def cleared_flag : Call → Option sd_flag
  | .clear_bit f => some f
  | _ => none

/-- Releases of a cluster lock: dequeueing a holder or putting a glock. -/
def is_lock_release : Call → Bool
  | .gfs2_glock_dq_uninit _ => true
  | .gfs2_glock_put _ => true
  | _ => false

/-- Releases of a cluster lock or of an inode record. -/
def is_release : Call → Bool
  | .gfs2_glock_dq_uninit _ => true
  | .gfs2_glock_put _ => true
  | .gfs2_inode_put _ => true
  | _ => false

/-- Calls into the glock layer on a lock: dequeue, put, schedule for reclaim
(this file makes no acquiring call). -/
def is_lock_call : Call → Bool
  | .gfs2_glock_dq_uninit _ => true
  | .gfs2_glock_put _ => true
  | .gfs2_glock_schedule_for_reclaim _ => true
  | _ => false

/-- The read-only transition, whatever it returned. -/
def is_make_fs_ro : Call → Bool
  | .gfs2_make_fs_ro _ => true
  | _ => false

/-- The read-write transition, whatever it returned. -/
def is_make_fs_rw : Call → Bool
  | .gfs2_make_fs_rw _ => true
  | _ => false

/-- The error returned by a transition call. -/
def transition_ret : Call → Option Int
  | .gfs2_make_fs_ro e => some e
  | .gfs2_make_fs_rw e => some e
  | _ => none

/-- Calls of `gfs2_freeze_fs`, whatever they returned. -/
def is_freeze_fs : Call → Bool
  | .gfs2_freeze_fs _ => true
  | _ => false

/-- Waits for a thread completion. -/
def is_wait : Call → Bool
  | .wait_for_completion => true
  | _ => false

/-- The broadcast wake of the glockd pool. -/
def is_pool_wake : Call → Bool
  | .wake_up_sd_reclaim_wq => true
  | _ => false

/-- Dequeue-and-uninit calls on the holder `h`. -/
def is_dq_uninit (h : sd_holder) : Call → Bool
  | .gfs2_glock_dq_uninit g => g == h
  | _ => false

/-- Put calls on the glock `g`. -/
def is_glock_put (g : glock_arg) : Call → Bool
  | .gfs2_glock_put k => k == g
  | _ => false

/-- Put calls on the inode record `i`. -/
def is_inode_put (i : inode_arg) : Call → Bool
  | .gfs2_inode_put k => k == i
  | _ => false

/-- The quota sync. -/
def is_quota_sync : Call → Bool
  | .gfs2_quota_sync => true
  | _ => false

/-- The I/O-error report. -/
def is_io_error : Call → Bool
  | .gfs2_io_error => true
  | _ => false

/-- The steps of the read-only stage of teardown: quota sync, read-only
transition, I/O-error report. -/
def is_readonly_step : Call → Bool
  | .gfs2_quota_sync => true
  | .gfs2_make_fs_ro _ => true
  | .gfs2_io_error => true
  | _ => false

/-- The value returned by a call of `gfs2_freeze_fs`. -/
def freeze_ret : Call → Option Int
  | .gfs2_freeze_fs e => some e
  | _ => none

/-- The one-second sleep `schedule_timeout(HZ)`. -/
def is_sleep : Call → Bool
  | .schedule_timeout_HZ => true
  | _ => false

/-- Calls of `gfs2_freeze_fs` and sleeps. -/
def is_freeze_or_sleep (c : Call) : Bool :=
  is_freeze_fs c || is_sleep c

/-- Increments of the op counter. -/
def is_atomic_inc : Call → Bool
  | .atomic_inc_sd_ops_super => true
  | _ => false

/-- The steps of a trace strictly after the first occurrence of `a`. -/
def events_after (a : Call) (tr : List Call) : List Call :=
  (tr.dropWhile (fun c => c != a)).drop 1

/-- The steps of a trace from the first occurrence of `a` on. -/
def events_from (a : Call) (tr : List Call) : List Call :=
  tr.dropWhile (fun c => c != a)

/-- The release phase a step of teardown belongs to:
0 the five fixed system inodes other than root, 1 the root inode, 2 the
transaction and rename glocks, 3 the journal-related holders and inodes,
4 the live holder, 5 the bookkeeping discard, 6 the lock-manager detach. -/
def release_phase : Call → Option Nat
  | .gfs2_inode_put .sd_master_dir => some 0
  | .gfs2_inode_put .sd_jindex => some 0
  | .gfs2_inode_put .sd_inum_inode => some 0
  | .gfs2_inode_put .sd_rindex => some 0
  | .gfs2_inode_put .sd_quota_inode => some 0
  | .gfs2_inode_put .sd_root_inode => some 1
  | .gfs2_glock_put .sd_trans_gl => some 2
  | .gfs2_glock_put .sd_rename_gl => some 2
  | .gfs2_glock_dq_uninit .sd_journal_gh => some 3
  | .gfs2_glock_dq_uninit .sd_jinode_gh => some 3
  | .gfs2_glock_dq_uninit .sd_ir_gh => some 3
  | .gfs2_glock_dq_uninit .sd_ut_gh => some 3
  | .gfs2_glock_dq_uninit .sd_qc_gh => some 3
  | .gfs2_inode_put .sd_ir_inode => some 3
  | .gfs2_inode_put .sd_ut_inode => some 3
  | .gfs2_inode_put .sd_qc_inode => some 3
  | .gfs2_glock_dq_uninit .sd_live_gh => some 4
  | .gfs2_clear_rgrpd => some 5
  | .gfs2_jindex_free => some 5
  | .gfs2_gl_hash_clear => some 5
  | .gfs2_lm_unmount => some 6
  | _ => none

/-- Releases that belong to none of the release phases. -/
def is_unphased_release (c : Call) : Bool :=
  is_release c && (release_phase c).isNone

/-- Completion waits and steps of the read-only stage. -/
def is_wait_or_readonly_step (c : Call) : Bool :=
  is_wait c || is_readonly_step c

/-- Modelled from the spec: the lock manager's `release(handle)`, which the
glock layer (not in this file) performs on `gfs2_glock_dq_uninit`.  Given
which holders are held before a trace, tells which are held after it. -/
def held_after (held : sd_holder → Bool) : List Call → sd_holder → Bool
  | [] => held
  | .gfs2_glock_dq_uninit h :: tr => held_after (fun g => if g = h then false else held g) tr
  | _ :: tr => held_after held tr

/-- The steps of the drain loop when `busy` passes report inodes in use. -/
def drain_calls : Nat → List Call
  | 0 => [.invalidate_inodes]
  | busy + 1 => .invalidate_inodes :: .yield :: drain_calls busy

/-- The super-block data once all six service loops are stopped: the state in
which teardown tests `SDF_ROFS` and calls the read-only transition. -/
def loops_stopped (sdp : gfs2_sbd) : gfs2_sbd :=
  { inc_ops_super sdp with
    sd_flags := fun f =>
      match f with
      | .SDF_ROFS => sdp.sd_flags .SDF_ROFS
      | .SDF_NOATIME => sdp.sd_flags .SDF_NOATIME
      | _ => false
    sd_glockd_num := 2 ^ 32 - 1 }

/-- The steps of the freeze retry loop for a list of failed attempts. -/
def retry_calls (K : Collab) : List Int → List Call
  | [] => []
  | error :: errs =>
    [Call.gfs2_freeze_fs error,
     (if error = -K.EBUSY then Call.printk_waiting_for_recovery
      else Call.printk_error_freezing error),
     Call.printk_retrying, Call.set_current_state_TASK_UNINTERRUPTIBLE,
     Call.schedule_timeout_HZ] ++ retry_calls K errs

/-- The super-block data in which remount tests the spectator and read-only
flags: op counter incremented, `SDF_NOATIME` set exactly when one of the two
atime bits is requested. -/
def noatime_updated (K : Collab) (sdp : gfs2_sbd) (flags : Nat) : gfs2_sbd :=
  { inc_ops_super sdp with
    sd_flags := write_bit sdp.sd_flags .SDF_NOATIME
      (decide (flags &&& (K.MS_NOATIME ||| K.MS_NODIRATIME) ≠ 0)) }

/-- The thaw segment of teardown: the freeze holder is dequeued when the
freeze count is non-zero. -/
def thaw_calls (sdp : gfs2_sbd) : List Call :=
  if sdp.sd_freeze_count ≠ 0 then [Call.gfs2_glock_dq_uninit .sd_freeze_gh] else []

/-- The segment of teardown that stops the six service loops, with `n`
glockd threads. -/
def stop_calls (n : Nat) : List Call :=
  [Call.down_sd_thread_lock, Call.clear_bit .SDF_INODED_RUN,
   Call.wake_up_process .sd_inoded_process, Call.up_sd_thread_lock, Call.wait_for_completion,
   Call.down_sd_thread_lock, Call.clear_bit .SDF_QUOTAD_RUN,
   Call.wake_up_process .sd_quotad_process, Call.up_sd_thread_lock, Call.wait_for_completion,
   Call.down_sd_thread_lock, Call.clear_bit .SDF_LOGD_RUN,
   Call.wake_up_process .sd_logd_process, Call.up_sd_thread_lock, Call.wait_for_completion,
   Call.down_sd_thread_lock, Call.clear_bit .SDF_RECOVERD_RUN,
   Call.wake_up_process .sd_recoverd_process, Call.up_sd_thread_lock, Call.wait_for_completion,
   Call.clear_bit .SDF_GLOCKD_RUN, Call.wake_up_sd_reclaim_wq]
  ++ List.replicate n Call.wait_for_completion
  ++ [Call.down_sd_thread_lock, Call.clear_bit .SDF_SCAND_RUN,
      Call.wake_up_process .sd_scand_process, Call.up_sd_thread_lock, Call.wait_for_completion]

/-- The segment of teardown that makes the filesystem read-only, given whether
`SDF_ROFS` is set and the error the transition returns. -/
def readonly_calls (rofs : Bool) (error : Int) : List Call :=
  if rofs = false then
    [Call.gfs2_quota_sync, Call.gfs2_make_fs_ro error]
      ++ (if error ≠ 0 then [Call.gfs2_io_error] else [])
  else []

/-- The journal-related releases of teardown, made when `ar_spectator` is 0. -/
def journal_release_calls (ar_spectator : Int) : List Call :=
  if ar_spectator = 0 then
    [Call.gfs2_glock_dq_uninit .sd_journal_gh, Call.gfs2_glock_dq_uninit .sd_jinode_gh,
     Call.gfs2_glock_dq_uninit .sd_ir_gh, Call.gfs2_glock_dq_uninit .sd_ut_gh,
     Call.gfs2_glock_dq_uninit .sd_qc_gh, Call.gfs2_inode_put .sd_ir_inode,
     Call.gfs2_inode_put .sd_ut_inode, Call.gfs2_inode_put .sd_qc_inode]
  else []

/-- The release segment of teardown up to and including the last glock put
before the journal-related releases. -/
def fixed_release_calls : List Call :=
  [Call.gfs2_inode_put .sd_master_dir, Call.gfs2_inode_put .sd_jindex,
   Call.gfs2_inode_put .sd_inum_inode, Call.gfs2_inode_put .sd_rindex,
   Call.gfs2_inode_put .sd_quota_inode, Call.gfs2_inode_put .sd_root_inode,
   Call.gfs2_glock_put .sd_trans_gl, Call.gfs2_glock_put .sd_rename_gl]

/-- The end of teardown after the live holder is dequeued. -/
def detach_calls (busy : Nat) : List Call :=
  [Call.gfs2_clear_rgrpd, Call.gfs2_jindex_free, Call.gfs2_gl_hash_clear, Call.gfs2_lm_unmount]
  ++ drain_calls busy ++ [Call.vfree, Call.set_v2sdp_NULL]

/-- The calls `gfs2_put_super` makes on a super block with the state `sdp`
attached and `busy` draining passes ahead. -/
def teardown_trace (K : Collab) (sdp : gfs2_sbd) (busy : Nat) : List Call :=
  (gfs2_put_super K { s_fs_info := some sdp, s_busy_passes := busy }).2

/-- A sample super-block state: a frozen, writable, full cluster member with
two glockd threads. -/
def sample_sbd : gfs2_sbd :=
  { sd_flags := fun f => decide (f ≠ sd_flag.SDF_ROFS ∧ f ≠ sd_flag.SDF_NOATIME)
    sd_args := { ar_spectator := 0 }
    sd_freeze_count := 1
    sd_glockd_num := 2
    sd_ops_super := 7
    sb_bsize := 4096
    sd_master_dir := 101
    sd_jindex := 102
    sd_inum_inode := 103
    sd_rindex := 104
    sd_quota_inode := 105
    sd_root_inode := 106
    sd_ir_inode := 107
    sd_ut_inode := 108
    sd_qc_inode := 109
    sd_trans_gl := 201
    sd_rename_gl := 202 }

/-- Sample collaborators with the Linux values of the header constants: both
transitions succeed, the allocator reports 100 blocks, 40 free, 10 dinodes. -/
def sample_collab : Collab :=
  { MS_RDONLY := 1
    MS_NOATIME := 1024
    MS_NODIRATIME := 2048
    EBUSY := 16
    GFS2_MAGIC := 0x01161970
    GFS2_FNAMESIZE := 255
    gfs2_make_fs_ro := fun s => (0, write_bit s.sd_flags .SDF_ROFS true)
    gfs2_make_fs_rw := fun s => (0, write_bit s.sd_flags .SDF_ROFS false)
    gfs2_statfs_i := fun _ => (0, { sg_total := 100, sg_free := 40, sg_dinodes := 10 }) }

/-- A sample spectator state: read-only, not frozen. -/
def sample_spectator_sbd : gfs2_sbd :=
  { sample_sbd with
    sd_flags := fun f => decide (f ≠ sd_flag.SDF_NOATIME)
    sd_args := { ar_spectator := 1 }
    sd_freeze_count := 0 }

/-- Sample collaborators whose allocator reports more free blocks than blocks
in total. -/
def overfull_collab : Collab :=
  { sample_collab with
    gfs2_statfs_i := fun _ => (0, { sg_total := 0, sg_free := 1, sg_dinodes := 0 }) }

/-- An empty statfs buffer. -/
def zero_kstatfs : kstatfs :=
  { f_type := 0, f_bsize := 0, f_blocks := 0, f_bfree := 0, f_bavail := 0, f_files := 0,
    f_ffree := 0, f_namelen := 0 }

/-- A sample in-core inode record whose inode glock and iopen glock differ. -/
def sample_ip : gfs2_inode :=
  { i_num := 5, i_gl := 11, i_iopen_gl := 12, i_vnode := some 5 }

/-- A sample VFS inode with the sample record attached. -/
def sample_inode : inode :=
  { i_ino := 5, v2ip := some sample_ip }

/-! ## Trace lemmas -/

@[simp]
theorem call_trace (c : Call) (w : World) : (call c w).trace = w.trace ++ [c] := rfl

@[simp]
theorem call_sdp (c : Call) (w : World) : (call c w).sdp = w.sdp := rfl

@[simp]
theorem clear_bit_trace (f : sd_flag) (w : World) :
    (clear_bit f w).trace = w.trace ++ [Call.clear_bit f] := rfl

@[simp]
theorem set_bit_trace (f : sd_flag) (w : World) :
    (set_bit f w).trace = w.trace ++ [Call.set_bit f] := rfl

@[simp]
theorem atomic_inc_trace (w : World) :
    (atomic_inc_sd_ops_super w).trace = w.trace ++ [Call.atomic_inc_sd_ops_super] := rfl

@[simp]
theorem atomic_inc_sdp (w : World) :
    (atomic_inc_sd_ops_super w).sdp = inc_ops_super w.sdp := rfl

theorem while_glockd_num_trace (n : Nat) (w : World) :
    (while_glockd_num n w).trace = w.trace ++ List.replicate n Call.wait_for_completion := by
  induction n generalizing w with
  | zero => simp [while_glockd_num]
  | succ n ih =>
    simp [while_glockd_num, ih, List.replicate_succ]

theorem while_glockd_num_sdp (n : Nat) (w : World) :
    (while_glockd_num n w).sdp = { w.sdp with sd_glockd_num := 2 ^ 32 - 1 } := by
  induction n generalizing w with
  | zero => simp [while_glockd_num]
  | succ n ih =>
    simp [while_glockd_num, ih]

theorem while_invalidate_inodes_trace (busy : Nat) (w : World) :
    (while_invalidate_inodes busy w).trace = w.trace ++ drain_calls busy := by
  induction busy generalizing w with
  | zero => simp [while_invalidate_inodes, drain_calls]
  | succ n ih =>
    simp [while_invalidate_inodes, drain_calls, ih]

@[simp]
theorem clear_bit_sdp (f : sd_flag) (w : World) :
    (clear_bit f w).sdp = { w.sdp with sd_flags := write_bit w.sdp.sd_flags f false } := rfl

@[simp]
theorem set_bit_sdp (f : sd_flag) (w : World) :
    (set_bit f w).sdp = { w.sdp with sd_flags := write_bit w.sdp.sd_flags f true } := rfl

theorem kill_thread_trace (f : sd_flag) (p : sd_process) (w : World) :
    (kill_thread f p w).trace =
      w.trace ++ [Call.down_sd_thread_lock, Call.clear_bit f, Call.wake_up_process p,
        Call.up_sd_thread_lock, Call.wait_for_completion] := by
  simp [kill_thread]

theorem kill_thread_sdp (f : sd_flag) (p : sd_process) (w : World) :
    (kill_thread f p w).sdp = { w.sdp with sd_flags := write_bit w.sdp.sd_flags f false } := by
  simp [kill_thread]

theorem stop_flags_eq (flags : sd_flag → Bool) :
    write_bit (write_bit (write_bit (write_bit (write_bit (write_bit
        flags .SDF_INODED_RUN false) .SDF_QUOTAD_RUN false) .SDF_LOGD_RUN false)
        .SDF_RECOVERD_RUN false) .SDF_GLOCKD_RUN false) .SDF_SCAND_RUN false
      = fun f => match f with
        | .SDF_ROFS => flags .SDF_ROFS
        | .SDF_NOATIME => flags .SDF_NOATIME
        | _ => false := by
  funext f
  cases f <;> simp [write_bit]

/-- Normal form of the teardown trace on an attached super block. -/
theorem put_super_trace (K : Collab) (sdp : gfs2_sbd) (busy : Nat) :
    teardown_trace K sdp busy =
      [Call.atomic_inc_sd_ops_super, Call.gfs2_proc_fs_del, Call.down_sd_freeze_lock]
      ++ (thaw_calls sdp
      ++ (Call.up_sd_freeze_lock :: (stop_calls sdp.sd_glockd_num
      ++ (readonly_calls (sdp.sd_flags .SDF_ROFS) (K.gfs2_make_fs_ro (loops_stopped sdp)).1
      ++ (fixed_release_calls
      ++ (journal_release_calls sdp.sd_args.ar_spectator
      ++ (Call.gfs2_glock_dq_uninit .sd_live_gh :: detach_calls busy))))))) := by
  by_cases hf : sdp.sd_freeze_count = 0 <;> by_cases hs : sdp.sd_args.ar_spectator = 0 <;>
    by_cases hr : sdp.sd_flags .SDF_ROFS = false <;>
    simp [teardown_trace, gfs2_put_super, kill_thread_trace, kill_thread_sdp,
        while_glockd_num_trace, while_glockd_num_sdp, while_invalidate_inodes_trace, test_bit,
        stop_flags_eq, hr, hf, hs, loops_stopped, inc_ops_super, thaw_calls, stop_calls,
        readonly_calls, fixed_release_calls, journal_release_calls, detach_calls]
  all_goals (split_ifs <;> simp_all)

/-! ## List lemmas -/

theorem mem_drain_calls (busy : Nat) (c : Call) (h : c ∈ drain_calls busy) :
    c = Call.invalidate_inodes ∨ c = Call.yield := by
  induction busy with
  | zero => simp [drain_calls] at h; exact Or.inl h
  | succ n ih =>
    simp only [drain_calls, List.mem_cons] at h
    rcases h with h | h | h
    · exact Or.inl h
    · exact Or.inr h
    · exact ih h

theorem filter_drain_calls (p : Call → Bool) (busy : Nat)
    (h1 : p Call.invalidate_inodes = false) (h2 : p Call.yield = false) :
    (drain_calls busy).filter p = [] := by
  induction busy with
  | zero => simp [drain_calls, h1]
  | succ n ih => simp [drain_calls, h1, h2, ih]

theorem filterMap_drain_calls {β : Type} (f : Call → Option β) (busy : Nat)
    (h1 : f Call.invalidate_inodes = none) (h2 : f Call.yield = none) :
    (drain_calls busy).filterMap f = [] := by
  induction busy with
  | zero => simp [drain_calls, h1]
  | succ n ih => simp [drain_calls, h1, h2, ih]

theorem countP_drain_calls (p : Call → Bool) (busy : Nat)
    (h1 : p Call.invalidate_inodes = false) (h2 : p Call.yield = false) :
    (drain_calls busy).countP p = 0 := by
  induction busy with
  | zero => simp [drain_calls, h1]
  | succ n ih => simp [drain_calls, h1, h2, ih]

theorem not_mem_drain_calls (c : Call) (busy : Nat)
    (h1 : c ≠ Call.invalidate_inodes) (h2 : c ≠ Call.yield) : c ∉ drain_calls busy := by
  intro h
  rcases mem_drain_calls busy c h with h | h
  · exact h1 h
  · exact h2 h

theorem events_from_append (a : Call) (l r : List Call) (h : a ∉ l) :
    events_from a (l ++ r) = events_from a r := by
  induction l with
  | nil => rfl
  | cons x l ih =>
    have hx : x ≠ a := fun e => h (by simp [e])
    have hl : a ∉ l := fun e => h (by simp [e])
    simp [events_from, List.dropWhile_cons, hx] at ih ⊢
    exact ih hl

theorem events_after_split (a : Call) (l r : List Call) (h : a ∉ l) :
    events_after a (l ++ a :: r) = r := by
  have h1 := events_from_append a l (a :: r) h
  simp only [events_from] at h1
  simp [events_after, h1, List.dropWhile_cons]

theorem held_after_append (held : sd_holder → Bool) (l r : List Call) :
    held_after held (l ++ r) = held_after (held_after held l) r := by
  induction l generalizing held with
  | nil => rfl
  | cons x l ih =>
    cases x <;> simp [held_after, ih]

theorem held_after_untouched (held : sd_holder → Bool) (l : List Call) (h : sd_holder)
    (hn : Call.gfs2_glock_dq_uninit h ∉ l) : held_after held l h = held h := by
  induction l generalizing held with
  | nil => rfl
  | cons x l ih =>
    have hl : Call.gfs2_glock_dq_uninit h ∉ l := fun e => hn (by simp [e])
    cases x
    case gfs2_glock_dq_uninit g =>
      have hg : h ≠ g := fun e => hn (by simp [e])
      simp [held_after, ih _ hl, hg]
    all_goals simp [held_after, ih _ hl]


/-! ## Teardown: service loops -/

/-- C1: on every attached state with N glockd threads, teardown clears the
run flags in the order INODED, QUOTAD, LOGD, RECOVERD, GLOCKD, SCAND; each
clear is followed by that loop's wake and then its completion wait(s) before
the next clear; the pool stage has one wake and N waits; N + 5 waits in all. -/
theorem put_super_stops_loops_in_order (K : Collab) (sdp : gfs2_sbd) (busy : Nat) :
    (teardown_trace K sdp busy).filterMap cleared_flag =
      [.SDF_INODED_RUN, .SDF_QUOTAD_RUN, .SDF_LOGD_RUN, .SDF_RECOVERD_RUN, .SDF_GLOCKD_RUN,
       .SDF_SCAND_RUN]
    ∧ (teardown_trace K sdp busy).filter service_event =
      [Call.clear_bit .SDF_INODED_RUN, Call.wake_up_process .sd_inoded_process,
       Call.wait_for_completion,
       Call.clear_bit .SDF_QUOTAD_RUN, Call.wake_up_process .sd_quotad_process,
       Call.wait_for_completion,
       Call.clear_bit .SDF_LOGD_RUN, Call.wake_up_process .sd_logd_process,
       Call.wait_for_completion,
       Call.clear_bit .SDF_RECOVERD_RUN, Call.wake_up_process .sd_recoverd_process,
       Call.wait_for_completion,
       Call.clear_bit .SDF_GLOCKD_RUN, Call.wake_up_sd_reclaim_wq]
      ++ List.replicate sdp.sd_glockd_num Call.wait_for_completion
      ++ [Call.clear_bit .SDF_SCAND_RUN, Call.wake_up_process .sd_scand_process,
          Call.wait_for_completion]
    ∧ (teardown_trace K sdp busy).countP is_wait = sdp.sd_glockd_num + 5
    ∧ (teardown_trace K sdp busy).countP is_pool_wake = 1 := by
  rw [put_super_trace]
  refine ⟨?_, ?_, ?_, ?_⟩
  · have h1 : (thaw_calls sdp).filterMap cleared_flag = [] := by
      unfold thaw_calls; split_ifs <;> simp [cleared_flag]
    have h2 : ∀ r e, (readonly_calls r e).filterMap cleared_flag = [] := by
      intro r e; unfold readonly_calls; split_ifs <;> simp [cleared_flag]
    have h3 : ∀ s, (journal_release_calls s).filterMap cleared_flag = [] := by
      intro s; unfold journal_release_calls; split_ifs <;> simp [cleared_flag]
    simp only [List.filterMap_append, List.filterMap_cons, h1, h2, h3]
    simp [stop_calls, fixed_release_calls, detach_calls, cleared_flag,
      List.filterMap_replicate, filterMap_drain_calls cleared_flag busy rfl rfl]
  · have h1 : (thaw_calls sdp).filter service_event = [] := by
      unfold thaw_calls; split_ifs <;> simp [service_event]
    have h2 : ∀ r e, (readonly_calls r e).filter service_event = [] := by
      intro r e; unfold readonly_calls; split_ifs <;> simp [service_event]
    have h3 : ∀ s, (journal_release_calls s).filter service_event = [] := by
      intro s; unfold journal_release_calls; split_ifs <;> simp [service_event]
    simp only [List.filter_append, List.filter_cons, h1, h2, h3]
    simp [stop_calls, fixed_release_calls, detach_calls, service_event,
      List.filter_replicate, filter_drain_calls service_event busy rfl rfl]
  · have h1 : (thaw_calls sdp).countP is_wait = 0 := by
      unfold thaw_calls; split_ifs <;> simp [is_wait]
    have h2 : ∀ r e, (readonly_calls r e).countP is_wait = 0 := by
      intro r e; unfold readonly_calls; split_ifs <;> simp [is_wait]
    have h3 : ∀ s, (journal_release_calls s).countP is_wait = 0 := by
      intro s; unfold journal_release_calls; split_ifs <;> simp [is_wait]
    simp only [List.countP_append, List.countP_cons, h1, h2, h3]
    simp [stop_calls, fixed_release_calls, detach_calls, is_wait,
      List.countP_replicate, countP_drain_calls is_wait busy rfl rfl]
  · have h1 : (thaw_calls sdp).countP is_pool_wake = 0 := by
      unfold thaw_calls; split_ifs <;> simp [is_pool_wake]
    have h2 : ∀ r e, (readonly_calls r e).countP is_pool_wake = 0 := by
      intro r e; unfold readonly_calls; split_ifs <;> simp [is_pool_wake]
    have h3 : ∀ s, (journal_release_calls s).countP is_pool_wake = 0 := by
      intro s; unfold journal_release_calls; split_ifs <;> simp [is_pool_wake]
    simp only [List.countP_append, List.countP_cons, h1, h2, h3]
    simp [stop_calls, fixed_release_calls, detach_calls, is_pool_wake,
      List.countP_replicate, countP_drain_calls is_pool_wake busy rfl rfl]

/-! ## Teardown: thaw -/

/-- C2: on every attached state, teardown dequeues the freeze holder exactly
once when the freeze count is non-zero and never when it is zero; nothing
before that point clears a run flag or releases a lock or an inode; and the
freeze holder is not held afterwards (it could only stay held if it had been
held with a zero freeze count). -/
theorem put_super_thaws_first (K : Collab) (sdp : gfs2_sbd) (busy : Nat) :
    (∃ pre post,
      teardown_trace K sdp busy =
        pre ++ (if sdp.sd_freeze_count ≠ 0 then [Call.gfs2_glock_dq_uninit .sd_freeze_gh] else [])
          ++ post
      ∧ pre.filterMap cleared_flag = []
      ∧ pre.filter is_release = []
      ∧ post.countP (is_dq_uninit .sd_freeze_gh) = 0)
    ∧ (teardown_trace K sdp busy).countP (is_dq_uninit .sd_freeze_gh) =
        (if sdp.sd_freeze_count ≠ 0 then 1 else 0)
    ∧ ∀ held : sd_holder → Bool,
        held_after held (teardown_trace K sdp busy) .sd_freeze_gh =
          (held .sd_freeze_gh && decide (sdp.sd_freeze_count = 0)) := by
  have h2 : ∀ r e, (readonly_calls r e).countP (is_dq_uninit .sd_freeze_gh) = 0 := by
    intro r e; unfold readonly_calls; split_ifs <;> simp [is_dq_uninit]
  have h3 : ∀ s, (journal_release_calls s).countP (is_dq_uninit .sd_freeze_gh) = 0 := by
    intro s; unfold journal_release_calls; split_ifs <;> simp [is_dq_uninit]
  have hpost : (Call.up_sd_freeze_lock :: (stop_calls sdp.sd_glockd_num
      ++ (readonly_calls (sdp.sd_flags .SDF_ROFS) (K.gfs2_make_fs_ro (loops_stopped sdp)).1
      ++ (fixed_release_calls
      ++ (journal_release_calls sdp.sd_args.ar_spectator
      ++ (Call.gfs2_glock_dq_uninit .sd_live_gh :: detach_calls busy)))))).countP
        (is_dq_uninit .sd_freeze_gh) = 0 := by
    simp only [List.countP_append, List.countP_cons, h2, h3]
    simp [stop_calls, fixed_release_calls, detach_calls, is_dq_uninit,
      List.countP_replicate, countP_drain_calls (is_dq_uninit .sd_freeze_gh) busy rfl rfl]
  rw [put_super_trace]
  refine ⟨⟨[Call.atomic_inc_sd_ops_super, Call.gfs2_proc_fs_del, Call.down_sd_freeze_lock], _,
    by rw [List.append_assoc]; rfl, by simp [cleared_flag], by simp [is_release], hpost⟩,
    ?_, ?_⟩
  · rw [List.countP_append, List.countP_append, hpost]
    simp only [thaw_calls]
    split_ifs <;> simp [is_dq_uninit]
  · intro held
    rw [held_after_append, held_after_append, held_after_untouched _ (_ :: _)]
    · simp only [thaw_calls]
      split_ifs <;> simp_all [held_after]
    · intro hmem
      have := List.countP_pos_iff.mpr ⟨_, hmem, (by simp [is_dq_uninit] :
        is_dq_uninit .sd_freeze_gh (Call.gfs2_glock_dq_uninit .sd_freeze_gh) = true)⟩
      omega

/-! ## Teardown: releases -/

theorem countP_dq_uninit_teardown (K : Collab) (sdp : gfs2_sbd) (busy : Nat) (h : sd_holder) :
    (teardown_trace K sdp busy).countP (is_dq_uninit h) =
      match h with
      | .sd_live_gh => 1
      | .sd_freeze_gh => if sdp.sd_freeze_count ≠ 0 then 1 else 0
      | _ => if sdp.sd_args.ar_spectator = 0 then 1 else 0 := by
  rw [put_super_trace]
  have h1 : (thaw_calls sdp).countP (is_dq_uninit h) =
      if sdp.sd_freeze_count ≠ 0 ∧ h = .sd_freeze_gh then 1 else 0 := by
    unfold thaw_calls; split_ifs <;> cases h <;> simp_all [is_dq_uninit]
  have h2 : ∀ r e, (readonly_calls r e).countP (is_dq_uninit h) = 0 := by
    intro r e; unfold readonly_calls; split_ifs <;> simp [is_dq_uninit]
  have h3 : (journal_release_calls sdp.sd_args.ar_spectator).countP (is_dq_uninit h) =
      if sdp.sd_args.ar_spectator = 0 ∧ h ≠ .sd_freeze_gh ∧ h ≠ .sd_live_gh then 1 else 0 := by
    unfold journal_release_calls; split_ifs <;> cases h <;> simp_all [is_dq_uninit]
  have h4 : (stop_calls sdp.sd_glockd_num).countP (is_dq_uninit h) = 0 := by
    simp [stop_calls, is_dq_uninit, List.countP_replicate]
  have h5 : fixed_release_calls.countP (is_dq_uninit h) = 0 := by
    simp [fixed_release_calls, is_dq_uninit]
  have h6 : (detach_calls busy).countP (is_dq_uninit h) = 0 := by
    simp [detach_calls, is_dq_uninit, countP_drain_calls (is_dq_uninit _) busy rfl rfl]
  simp only [List.countP_append, List.countP_cons, List.countP_nil, h1, h2, h3, h4, h5, h6]
  cases h <;> simp [is_dq_uninit]

theorem countP_glock_put_teardown (K : Collab) (sdp : gfs2_sbd) (busy : Nat) (g : glock_arg) :
    (teardown_trace K sdp busy).countP (is_glock_put g) =
      match g with
      | .sd_trans_gl => 1
      | .sd_rename_gl => 1
      | .gl _ => 0 := by
  rw [put_super_trace]
  have h1 : (thaw_calls sdp).countP (is_glock_put g) = 0 := by
    unfold thaw_calls; split_ifs <;> simp [is_glock_put]
  have h2 : ∀ r e, (readonly_calls r e).countP (is_glock_put g) = 0 := by
    intro r e; unfold readonly_calls; split_ifs <;> simp [is_glock_put]
  have h3 : ∀ s, (journal_release_calls s).countP (is_glock_put g) = 0 := by
    intro s; unfold journal_release_calls; split_ifs <;> simp [is_glock_put]
  have h4 : (stop_calls sdp.sd_glockd_num).countP (is_glock_put g) = 0 := by
    simp [stop_calls, is_glock_put, List.countP_replicate]
  have h6 : (detach_calls busy).countP (is_glock_put g) = 0 := by
    simp [detach_calls, is_glock_put, countP_drain_calls (is_glock_put _) busy rfl rfl]
  simp only [List.countP_append, List.countP_cons, List.countP_nil, h1, h2, h3, h4, h6]
  cases g <;> simp [fixed_release_calls, is_glock_put]

theorem countP_inode_put_teardown (K : Collab) (sdp : gfs2_sbd) (busy : Nat) (i : inode_arg) :
    (teardown_trace K sdp busy).countP (is_inode_put i) =
      match i with
      | .sd_ir_inode => if sdp.sd_args.ar_spectator = 0 then 1 else 0
      | .sd_ut_inode => if sdp.sd_args.ar_spectator = 0 then 1 else 0
      | .sd_qc_inode => if sdp.sd_args.ar_spectator = 0 then 1 else 0
      | .ip _ => 0
      | _ => 1 := by
  rw [put_super_trace]
  have h1 : (thaw_calls sdp).countP (is_inode_put i) = 0 := by
    unfold thaw_calls; split_ifs <;> simp [is_inode_put]
  have h2 : ∀ r e, (readonly_calls r e).countP (is_inode_put i) = 0 := by
    intro r e; unfold readonly_calls; split_ifs <;> simp [is_inode_put]
  have h3 : (journal_release_calls sdp.sd_args.ar_spectator).countP (is_inode_put i) =
      if sdp.sd_args.ar_spectator = 0 ∧
        (i = .sd_ir_inode ∨ i = .sd_ut_inode ∨ i = .sd_qc_inode) then 1 else 0 := by
    unfold journal_release_calls; split_ifs <;> cases i <;> simp_all [is_inode_put]
  have h4 : (stop_calls sdp.sd_glockd_num).countP (is_inode_put i) = 0 := by
    simp [stop_calls, is_inode_put, List.countP_replicate]
  have h6 : (detach_calls busy).countP (is_inode_put i) = 0 := by
    simp [detach_calls, is_inode_put, countP_drain_calls (is_inode_put _) busy rfl rfl]
  simp only [List.countP_append, List.countP_cons, List.countP_nil, h1, h2, h3, h4, h6]
  cases i <;> simp [fixed_release_calls, is_inode_put]

/-- C3: one teardown releases no handle twice.  The live holder, the
transaction glock and the rename glock are released exactly once; the journal,
journal-inode, ir, ut and quota-change holders and the ir, ut and quota-change
inodes exactly once on a non-spectator and never on a spectator; the freeze
holder once when the freeze count is non-zero; the six fixed inodes once. -/
theorem put_super_releases_once (K : Collab) (sdp : gfs2_sbd) (busy : Nat) :
    (∀ h : sd_holder, (teardown_trace K sdp busy).countP (is_dq_uninit h) =
      match h with
      | .sd_live_gh => 1
      | .sd_freeze_gh => if sdp.sd_freeze_count ≠ 0 then 1 else 0
      | _ => if sdp.sd_args.ar_spectator = 0 then 1 else 0)
    ∧ (∀ g : glock_arg, (teardown_trace K sdp busy).countP (is_glock_put g) =
      match g with
      | .sd_trans_gl => 1
      | .sd_rename_gl => 1
      | .gl _ => 0)
    ∧ (∀ i : inode_arg, (teardown_trace K sdp busy).countP (is_inode_put i) =
      match i with
      | .sd_ir_inode => if sdp.sd_args.ar_spectator = 0 then 1 else 0
      | .sd_ut_inode => if sdp.sd_args.ar_spectator = 0 then 1 else 0
      | .sd_qc_inode => if sdp.sd_args.ar_spectator = 0 then 1 else 0
      | .ip _ => 0
      | _ => 1) := by
  exact ⟨countP_dq_uninit_teardown K sdp busy, countP_glock_put_teardown K sdp busy,
    countP_inode_put_teardown K sdp busy⟩

theorem events_from_split (a : Call) (l r : List Call) (h : a ∉ l) :
    events_from a (l ++ a :: r) = a :: r := by
  rw [events_from_append a l (a :: r) h]
  simp [events_from, List.dropWhile_cons]

/-- The steps of teardown after the live holder is dequeued. -/
theorem events_after_live (K : Collab) (sdp : gfs2_sbd) (busy : Nat) :
    events_after (Call.gfs2_glock_dq_uninit .sd_live_gh) (teardown_trace K sdp busy) =
      detach_calls busy := by
  have h1 : Call.gfs2_glock_dq_uninit .sd_live_gh ∉ thaw_calls sdp := by
    unfold thaw_calls; split_ifs <;> simp
  have h2 : ∀ r e, Call.gfs2_glock_dq_uninit .sd_live_gh ∉ readonly_calls r e := by
    intro r e; unfold readonly_calls; split_ifs <;> simp
  have h3 : ∀ s, Call.gfs2_glock_dq_uninit .sd_live_gh ∉ journal_release_calls s := by
    intro s; unfold journal_release_calls; split_ifs <;> simp
  have h4 : ∀ n, Call.gfs2_glock_dq_uninit .sd_live_gh ∉ stop_calls n := by
    intro n; simp [stop_calls]
  have h5 : Call.gfs2_glock_dq_uninit .sd_live_gh ∉ fixed_release_calls := by
    simp [fixed_release_calls]
  rw [put_super_trace]
  have hsplit : ∀ (A T S R F J D : List Call) (u a : Call),
      A ++ (T ++ (u :: (S ++ (R ++ (F ++ (J ++ (a :: D))))))) =
        (A ++ (T ++ (u :: (S ++ (R ++ (F ++ J)))))) ++ a :: D := by
    intros; simp
  rw [hsplit, events_after_split]
  simp [h1, h2, h3, h4, h5]

/-- The steps of teardown after the lock-manager detach. -/
theorem events_after_lm_unmount (K : Collab) (sdp : gfs2_sbd) (busy : Nat) :
    events_after Call.gfs2_lm_unmount (teardown_trace K sdp busy) =
      drain_calls busy ++ [Call.vfree, Call.set_v2sdp_NULL] := by
  have h1 : Call.gfs2_lm_unmount ∉ thaw_calls sdp := by
    unfold thaw_calls; split_ifs <;> simp
  have h2 : ∀ r e, Call.gfs2_lm_unmount ∉ readonly_calls r e := by
    intro r e; unfold readonly_calls; split_ifs <;> simp
  have h3 : ∀ s, Call.gfs2_lm_unmount ∉ journal_release_calls s := by
    intro s; unfold journal_release_calls; split_ifs <;> simp
  have h4 : ∀ n, Call.gfs2_lm_unmount ∉ stop_calls n := by
    intro n; simp [stop_calls]
  have h5 : Call.gfs2_lm_unmount ∉ fixed_release_calls := by
    simp [fixed_release_calls]
  rw [put_super_trace]
  have hsplit : ∀ (A T S R F J D : List Call) (u a b c d e : Call),
      A ++ (T ++ (u :: (S ++ (R ++ (F ++ (J ++ (a :: ([b, c, d, e] ++ D)))))))) =
        (A ++ (T ++ (u :: (S ++ (R ++ (F ++ (J ++ [a, b, c, d]))))))) ++ e :: D := by
    intros; simp
  simp only [detach_calls, List.append_assoc]
  rw [hsplit, events_after_split]
  simp [h1, h2, h3, h4, h5]

/-- The steps of teardown from the first inode release on. -/
theorem events_from_master_dir (K : Collab) (sdp : gfs2_sbd) (busy : Nat) :
    events_from (Call.gfs2_inode_put .sd_master_dir) (teardown_trace K sdp busy) =
      fixed_release_calls ++ (journal_release_calls sdp.sd_args.ar_spectator
        ++ (Call.gfs2_glock_dq_uninit .sd_live_gh :: detach_calls busy)) := by
  have h1 : Call.gfs2_inode_put .sd_master_dir ∉ thaw_calls sdp := by
    unfold thaw_calls; split_ifs <;> simp
  have h2 : ∀ r e, Call.gfs2_inode_put .sd_master_dir ∉ readonly_calls r e := by
    intro r e; unfold readonly_calls; split_ifs <;> simp
  have h4 : ∀ n, Call.gfs2_inode_put .sd_master_dir ∉ stop_calls n := by
    intro n; simp [stop_calls]
  have hsplit : teardown_trace K sdp busy =
      ([Call.atomic_inc_sd_ops_super, Call.gfs2_proc_fs_del, Call.down_sd_freeze_lock]
        ++ (thaw_calls sdp ++ (Call.up_sd_freeze_lock :: (stop_calls sdp.sd_glockd_num
        ++ readonly_calls (sdp.sd_flags .SDF_ROFS) (K.gfs2_make_fs_ro (loops_stopped sdp)).1))))
      ++ Call.gfs2_inode_put .sd_master_dir ::
        ([Call.gfs2_inode_put .sd_jindex,
          Call.gfs2_inode_put .sd_inum_inode, Call.gfs2_inode_put .sd_rindex,
          Call.gfs2_inode_put .sd_quota_inode, Call.gfs2_inode_put .sd_root_inode,
          Call.gfs2_glock_put .sd_trans_gl, Call.gfs2_glock_put .sd_rename_gl]
        ++ (journal_release_calls sdp.sd_args.ar_spectator
        ++ (Call.gfs2_glock_dq_uninit .sd_live_gh :: detach_calls busy))) := by
    rw [put_super_trace]; simp [fixed_release_calls]
  rw [hsplit, events_from_split]
  · simp [fixed_release_calls]
  · simp [h1, h2, h4]

/-- The steps of teardown after the quota sync, when there is one. -/
theorem events_after_quota_sync (K : Collab) (sdp : gfs2_sbd) (busy : Nat) :
    (events_after Call.gfs2_quota_sync (teardown_trace K sdp busy)).filter service_event
      = [] := by
  have h1 : Call.gfs2_quota_sync ∉ thaw_calls sdp := by
    unfold thaw_calls; split_ifs <;> simp
  have h4 : ∀ n, Call.gfs2_quota_sync ∉ stop_calls n := by
    intro n; simp [stop_calls]
  have h5 : Call.gfs2_quota_sync ∉ fixed_release_calls := by
    simp [fixed_release_calls]
  have h3 : ∀ s, Call.gfs2_quota_sync ∉ journal_release_calls s := by
    intro s; unfold journal_release_calls; split_ifs <;> simp
  have h6 : Call.gfs2_quota_sync ∉ detach_calls busy := by
    simp [detach_calls, not_mem_drain_calls Call.gfs2_quota_sync busy (by simp) (by simp)]
  have f3 : ∀ s, (journal_release_calls s).filter service_event = [] := by
    intro s; unfold journal_release_calls; split_ifs <;> simp [service_event]
  have f5 : fixed_release_calls.filter service_event = [] := by
    simp [fixed_release_calls, service_event]
  have f6 : (detach_calls busy).filter service_event = [] := by
    simp [detach_calls, service_event, filter_drain_calls service_event busy rfl rfl]
  rw [put_super_trace]
  by_cases hr : sdp.sd_flags .SDF_ROFS = false
  · have hsplit :
        [Call.atomic_inc_sd_ops_super, Call.gfs2_proc_fs_del, Call.down_sd_freeze_lock]
        ++ (thaw_calls sdp
        ++ (Call.up_sd_freeze_lock :: (stop_calls sdp.sd_glockd_num
        ++ (readonly_calls (sdp.sd_flags .SDF_ROFS) (K.gfs2_make_fs_ro (loops_stopped sdp)).1
        ++ (fixed_release_calls
        ++ (journal_release_calls sdp.sd_args.ar_spectator
        ++ (Call.gfs2_glock_dq_uninit .sd_live_gh :: detach_calls busy))))))) =
        ([Call.atomic_inc_sd_ops_super, Call.gfs2_proc_fs_del, Call.down_sd_freeze_lock]
          ++ (thaw_calls sdp ++ (Call.up_sd_freeze_lock :: stop_calls sdp.sd_glockd_num)))
        ++ Call.gfs2_quota_sync ::
          (Call.gfs2_make_fs_ro (K.gfs2_make_fs_ro (loops_stopped sdp)).1 ::
            ((if (K.gfs2_make_fs_ro (loops_stopped sdp)).1 ≠ 0 then [Call.gfs2_io_error] else [])
            ++ (fixed_release_calls
            ++ (journal_release_calls sdp.sd_args.ar_spectator
            ++ (Call.gfs2_glock_dq_uninit .sd_live_gh :: detach_calls busy))))) := by
      simp [readonly_calls, hr]
    rw [hsplit, events_after_split]
    · have f2 : (if (K.gfs2_make_fs_ro (loops_stopped sdp)).1 ≠ 0 then [Call.gfs2_io_error]
          else []).filter service_event = [] := by
        split_ifs <;> simp [service_event]
      simp [List.filter_append, f2, f3, f5, f6, service_event]
    · simp [h1, h4]
  · have hnot : Call.gfs2_quota_sync ∉
        [Call.atomic_inc_sd_ops_super, Call.gfs2_proc_fs_del, Call.down_sd_freeze_lock]
        ++ (thaw_calls sdp
        ++ (Call.up_sd_freeze_lock :: (stop_calls sdp.sd_glockd_num
        ++ (readonly_calls (sdp.sd_flags .SDF_ROFS) (K.gfs2_make_fs_ro (loops_stopped sdp)).1
        ++ (fixed_release_calls
        ++ (journal_release_calls sdp.sd_args.ar_spectator
        ++ (Call.gfs2_glock_dq_uninit .sd_live_gh :: detach_calls busy))))))) := by
      simp [readonly_calls, hr, h1, h3, h4, h5, h6]
    have := events_from_append Call.gfs2_quota_sync _ [] hnot
    simp only [List.append_nil] at this
    simp only [events_from] at this
    rw [events_after, this]
    rfl

/-! ## Teardown: release order -/

/-- C4: in the teardown trace the releases follow the phase order: the five
fixed system inodes, then the root inode, then the transaction and rename
glocks, then (non-spectator only) the journal-related holders and inodes, then
the live holder, then the bookkeeping discard, then the lock-manager detach.
The only release outside these phases is the thaw.  No lock is released after
the live holder, and no glock call is made after the detach. -/
theorem put_super_release_order (K : Collab) (sdp : gfs2_sbd) (busy : Nat) :
    (teardown_trace K sdp busy).filterMap release_phase =
      [0, 0, 0, 0, 0, 1, 2, 2]
        ++ (if sdp.sd_args.ar_spectator = 0 then [3, 3, 3, 3, 3, 3, 3, 3] else [])
        ++ [4, 5, 5, 5, 6]
    ∧ (teardown_trace K sdp busy).filter is_unphased_release =
      (if sdp.sd_freeze_count ≠ 0 then [Call.gfs2_glock_dq_uninit .sd_freeze_gh] else [])
    ∧ (events_after (Call.gfs2_glock_dq_uninit .sd_live_gh)
        (teardown_trace K sdp busy)).filter is_lock_release = []
    ∧ (events_after Call.gfs2_lm_unmount (teardown_trace K sdp busy)).filter is_lock_call
        = [] := by
  refine ⟨?_, ?_, ?_, ?_⟩
  · have h1 : (thaw_calls sdp).filterMap release_phase = [] := by
      unfold thaw_calls; split_ifs <;> simp [release_phase]
    have h2 : ∀ r e, (readonly_calls r e).filterMap release_phase = [] := by
      intro r e; unfold readonly_calls; split_ifs <;> simp [release_phase]
    have h3 : (journal_release_calls sdp.sd_args.ar_spectator).filterMap release_phase =
        if sdp.sd_args.ar_spectator = 0 then [3, 3, 3, 3, 3, 3, 3, 3] else [] := by
      unfold journal_release_calls; split_ifs <;> simp [release_phase]
    have h4 : ∀ n, (stop_calls n).filterMap release_phase = [] := by
      intro n; simp [stop_calls, release_phase, List.filterMap_replicate]
    rw [put_super_trace]
    simp only [List.filterMap_append, List.filterMap_cons, h1, h2, h3, h4]
    simp [fixed_release_calls, detach_calls, release_phase,
      filterMap_drain_calls release_phase busy rfl rfl]
  · have h1 : (thaw_calls sdp).filter is_unphased_release =
        if sdp.sd_freeze_count ≠ 0 then [Call.gfs2_glock_dq_uninit .sd_freeze_gh] else [] := by
      unfold thaw_calls; split_ifs <;> simp [is_unphased_release, release_phase, is_release]
    have h2 : ∀ r e, (readonly_calls r e).filter
        is_unphased_release = [] := by
      intro r e; unfold readonly_calls; split_ifs <;> simp [is_unphased_release, release_phase, is_release]
    have h3 : ∀ s, (journal_release_calls s).filter
        is_unphased_release = [] := by
      intro s; unfold journal_release_calls; split_ifs <;> simp [is_unphased_release, release_phase, is_release]
    have h4 : ∀ n, (stop_calls n).filter
        is_unphased_release = [] := by
      intro n; simp [stop_calls, is_unphased_release, release_phase, is_release, List.filter_replicate]
    rw [put_super_trace]
    simp only [List.filter_append, List.filter_cons, h1, h2, h3, h4]
    simp [fixed_release_calls, detach_calls, is_unphased_release, release_phase, is_release,
      filter_drain_calls is_unphased_release busy rfl rfl]
  · rw [events_after_live]
    simp [detach_calls, is_lock_release, filter_drain_calls is_lock_release busy rfl rfl]
  · rw [events_after_lm_unmount]
    simp [is_lock_call, filter_drain_calls is_lock_call busy rfl rfl]

/-! ## Teardown: read-only stage -/

/-- C5: on every attached state, teardown makes all N + 5 completion waits and
then, if and only if `SDF_ROFS` is clear, calls the quota sync and then the
read-only transition, once each, in the state with all run flags clear; the
I/O-error report is raised if and only if the transition is called and returns
non-zero; no loop is stopped after the quota sync; and the steps from the
first inode release on do not depend on the flags or on the collaborators. -/
theorem put_super_readonly_stage (K : Collab) (sdp : gfs2_sbd) (busy : Nat) :
    (teardown_trace K sdp busy).filter is_wait_or_readonly_step =
      List.replicate (sdp.sd_glockd_num + 5) Call.wait_for_completion
        ++ (if sdp.sd_flags .SDF_ROFS = false then
              Call.gfs2_quota_sync ::
                Call.gfs2_make_fs_ro (K.gfs2_make_fs_ro (loops_stopped sdp)).1 ::
                  (if (K.gfs2_make_fs_ro (loops_stopped sdp)).1 ≠ 0 then [Call.gfs2_io_error]
                   else [])
            else [])
    ∧ (teardown_trace K sdp busy).countP is_quota_sync =
        (if sdp.sd_flags .SDF_ROFS = false then 1 else 0)
    ∧ (teardown_trace K sdp busy).countP is_make_fs_ro =
        (if sdp.sd_flags .SDF_ROFS = false then 1 else 0)
    ∧ (teardown_trace K sdp busy).countP is_io_error =
        (if sdp.sd_flags .SDF_ROFS = false ∧ (K.gfs2_make_fs_ro (loops_stopped sdp)).1 ≠ 0
          then 1 else 0)
    ∧ (events_after Call.gfs2_quota_sync (teardown_trace K sdp busy)).filter service_event
        = []
    ∧ ∀ (K2 : Collab) (flags2 : sd_flag → Bool),
        events_from (Call.gfs2_inode_put .sd_master_dir)
            (teardown_trace K2 { sdp with sd_flags := flags2 } busy) =
          events_from (Call.gfs2_inode_put .sd_master_dir) (teardown_trace K sdp busy) := by
  refine ⟨?_, ?_, ?_, ?_, events_after_quota_sync K sdp busy, ?_⟩
  · have h1 : (thaw_calls sdp).filter is_wait_or_readonly_step = [] := by
      unfold thaw_calls
      split_ifs <;> simp [is_wait_or_readonly_step, is_wait, is_readonly_step]
    have h2 : ∀ r e, (readonly_calls r e).filter is_wait_or_readonly_step =
        readonly_calls r e := by
      intro r e; unfold readonly_calls
      split_ifs <;> simp [is_wait_or_readonly_step, is_wait, is_readonly_step]
    have h3 : ∀ s, (journal_release_calls s).filter is_wait_or_readonly_step = [] := by
      intro s; unfold journal_release_calls
      split_ifs <;> simp [is_wait_or_readonly_step, is_wait, is_readonly_step]
    have h4 : ∀ n, (stop_calls n).filter is_wait_or_readonly_step =
        List.replicate (n + 5) Call.wait_for_completion := by
      intro n
      simp [stop_calls, is_wait_or_readonly_step, is_wait, is_readonly_step,
        List.filter_replicate, List.replicate_succ]
      rw [← List.replicate_succ', List.replicate_succ]
    rw [put_super_trace]
    simp only [List.filter_append, List.filter_cons, h1, h2, h3, h4]
    simp [fixed_release_calls, detach_calls, is_wait_or_readonly_step, is_wait,
      is_readonly_step, filter_drain_calls is_wait_or_readonly_step busy rfl rfl,
      readonly_calls]
  · have h1 : (thaw_calls sdp).countP is_quota_sync = 0 := by
      unfold thaw_calls; split_ifs <;> simp [is_quota_sync]
    have h2 : ∀ r e, (readonly_calls r e).countP is_quota_sync =
        if r = false then 1 else 0 := by
      intro r e; unfold readonly_calls; split_ifs <;> simp [is_quota_sync]
    have h3 : ∀ s, (journal_release_calls s).countP is_quota_sync = 0 := by
      intro s; unfold journal_release_calls; split_ifs <;> simp [is_quota_sync]
    rw [put_super_trace]
    simp only [List.countP_append, List.countP_cons, h1, h2, h3]
    simp [stop_calls, fixed_release_calls, detach_calls, is_quota_sync,
      List.countP_replicate, countP_drain_calls is_quota_sync busy rfl rfl]
  · have h1 : (thaw_calls sdp).countP is_make_fs_ro = 0 := by
      unfold thaw_calls; split_ifs <;> simp [is_make_fs_ro]
    have h2 : ∀ r e, (readonly_calls r e).countP is_make_fs_ro =
        if r = false then 1 else 0 := by
      intro r e; unfold readonly_calls; split_ifs <;> simp [is_make_fs_ro]
    have h3 : ∀ s, (journal_release_calls s).countP is_make_fs_ro = 0 := by
      intro s; unfold journal_release_calls; split_ifs <;> simp [is_make_fs_ro]
    rw [put_super_trace]
    simp only [List.countP_append, List.countP_cons, h1, h2, h3]
    simp [stop_calls, fixed_release_calls, detach_calls, is_make_fs_ro,
      List.countP_replicate, countP_drain_calls is_make_fs_ro busy rfl rfl]
  · have h1 : (thaw_calls sdp).countP is_io_error = 0 := by
      unfold thaw_calls; split_ifs <;> simp [is_io_error]
    have h2 : ∀ r e, (readonly_calls r e).countP is_io_error =
        if r = false ∧ e ≠ 0 then 1 else 0 := by
      intro r e; unfold readonly_calls; split_ifs <;> simp_all [is_io_error]
    have h3 : ∀ s, (journal_release_calls s).countP is_io_error = 0 := by
      intro s; unfold journal_release_calls; split_ifs <;> simp [is_io_error]
    rw [put_super_trace]
    simp only [List.countP_append, List.countP_cons, h1, h2, h3]
    simp [stop_calls, fixed_release_calls, detach_calls, is_io_error,
      List.countP_replicate, countP_drain_calls is_io_error busy rfl rfl]
  · intro K2 flags2
    rw [events_from_master_dir, events_from_master_dir]

/-! ## Freeze -/

theorem freeze_loop_retries (K : Collab) (errs rest : List Int) (w : World)
    (h : ∀ e ∈ errs, e ≠ 0) :
    freeze_loop K (errs ++ 0 :: rest) w =
      some { sdp := w.sdp,
             trace := w.trace ++ (retry_calls K errs ++ [Call.gfs2_freeze_fs 0]) } := by
  induction errs generalizing w with
  | nil => simp [freeze_loop, retry_calls, call]
  | cons e es ih =>
    have he : e ≠ 0 := h e (by simp)
    have hes : ∀ x ∈ es, x ≠ 0 := fun x hx => h x (by simp [hx])
    simp only [List.cons_append, freeze_loop, he, if_false]
    by_cases hb : e = -K.EBUSY
    · simp [hb, ih _ hes, retry_calls]
    · simp [hb, ih _ hes, retry_calls]

theorem retry_calls_freeze_ret (K : Collab) (errs : List Int) :
    (retry_calls K errs).filterMap freeze_ret = errs := by
  induction errs with
  | nil => rfl
  | cons e es ih =>
    by_cases hb : e = -K.EBUSY <;> simp [retry_calls, hb, freeze_ret, ih]

theorem retry_calls_freeze_or_sleep (K : Collab) (errs : List Int) :
    (retry_calls K errs).filter is_freeze_or_sleep =
      errs.flatMap (fun e => [Call.gfs2_freeze_fs e, Call.schedule_timeout_HZ]) := by
  induction errs with
  | nil => rfl
  | cons e es ih =>
    by_cases hb : e = -K.EBUSY <;>
      simp [retry_calls, hb, is_freeze_or_sleep, is_freeze_fs, is_sleep, ih]

theorem retry_calls_countP_freeze (K : Collab) (errs : List Int) :
    (retry_calls K errs).countP is_freeze_fs = errs.length := by
  induction errs with
  | nil => rfl
  | cons e es ih =>
    by_cases hb : e = -K.EBUSY <;> simp [retry_calls, hb, is_freeze_fs, ih]

theorem retry_calls_countP_sleep (K : Collab) (errs : List Int) :
    (retry_calls K errs).countP is_sleep = errs.length := by
  induction errs with
  | nil => rfl
  | cons e es ih =>
    by_cases hb : e = -K.EBUSY <;> simp [retry_calls, hb, is_sleep, ih]

theorem retry_calls_countP_atomic_inc (K : Collab) (errs : List Int) :
    (retry_calls K errs).countP is_atomic_inc = 0 := by
  induction errs with
  | nil => rfl
  | cons e es ih =>
    by_cases hb : e = -K.EBUSY <;> simp [retry_calls, hb, is_atomic_inc, ih]

/-- C6: when `gfs2_freeze_fs` answers with k non-zero error codes and then 0,
`gfs2_write_super_lockfs` returns; it has called `gfs2_freeze_fs` k + 1 times
(with exactly those answers), slept k times, once after each failed call, and
incremented the op counter once: the counter ends at its old value plus one
(mod 2^32), every other member of the super-block data is unchanged, and the
trace has one increment step. -/
theorem write_super_lockfs_retries (K : Collab) (sdp : gfs2_sbd) (errs rest : List Int)
    (h : ∀ e ∈ errs, e ≠ 0) :
    ∃ sdp2 tr, gfs2_write_super_lockfs K (errs ++ 0 :: rest) sdp = some (sdp2, tr)
      ∧ sdp2.sd_ops_super = (sdp.sd_ops_super + 1) % 2 ^ 32
      ∧ { sdp2 with sd_ops_super := sdp.sd_ops_super } = sdp
      ∧ tr.filterMap freeze_ret = errs ++ [0]
      ∧ tr.countP is_freeze_fs = errs.length + 1
      ∧ tr.countP is_sleep = errs.length
      ∧ tr.filter is_freeze_or_sleep =
          errs.flatMap (fun e => [Call.gfs2_freeze_fs e, Call.schedule_timeout_HZ])
            ++ [Call.gfs2_freeze_fs 0]
      ∧ tr.countP is_atomic_inc = 1 := by
  refine ⟨inc_ops_super sdp,
    [Call.atomic_inc_sd_ops_super] ++ (retry_calls K errs ++ [Call.gfs2_freeze_fs 0]),
    ?_, ?_, ?_, ?_, ?_, ?_, ?_, ?_⟩
  · simp [gfs2_write_super_lockfs, freeze_loop_retries K errs rest _ h,
      atomic_inc_sd_ops_super]
  · simp [inc_ops_super]
  · simp [inc_ops_super]
  · simp [List.filterMap_append, retry_calls_freeze_ret, freeze_ret]
  · simp [List.countP_append, retry_calls_countP_freeze, is_freeze_fs]
  · simp [List.countP_append, retry_calls_countP_sleep, is_sleep]
  · simp [List.filter_append, retry_calls_freeze_or_sleep, is_freeze_or_sleep, is_freeze_fs,
      is_sleep]
  · simp [List.countP_append, retry_calls_countP_atomic_inc, is_atomic_inc]

/-- C6 at the answers BUSY, BUSY, OK on the sample state (op counter 7):
success on the third attempt after two retries, op counter 8. -/
theorem write_super_lockfs_retries_witness :
    (∀ e ∈ [(-16 : Int), -16], e ≠ 0)
    ∧ ∃ sdp2 tr, gfs2_write_super_lockfs sample_collab ([-16, -16] ++ 0 :: []) sample_sbd =
        some (sdp2, tr)
      ∧ sdp2.sd_ops_super = (sample_sbd.sd_ops_super + 1) % 2 ^ 32
      ∧ { sdp2 with sd_ops_super := sample_sbd.sd_ops_super } = sample_sbd
      ∧ tr.filterMap freeze_ret = [-16, -16] ++ [0]
      ∧ tr.countP is_freeze_fs = [(-16 : Int), -16].length + 1
      ∧ tr.countP is_sleep = [(-16 : Int), -16].length
      ∧ tr.filter is_freeze_or_sleep =
          [(-16 : Int), -16].flatMap
              (fun e => [Call.gfs2_freeze_fs e, Call.schedule_timeout_HZ])
            ++ [Call.gfs2_freeze_fs 0]
      ∧ tr.countP is_atomic_inc = 1 :=
  ⟨by decide, write_super_lockfs_retries sample_collab sample_sbd [-16, -16] [] (by decide)⟩

/-! ## Remount -/

/-- C7: for every requested flag word, state and transition outcome, the flags
returned by `gfs2_remount_fs` are the requested ones with the no-atime and
no-dir-atime bits set, and with the read-only bit set as well on a spectator;
every other bit is as requested. -/
theorem remount_returned_flags (K : Collab) (sdp : gfs2_sbd) (flags : Nat) :
    (gfs2_remount_fs K sdp flags).flags =
      flags ||| (if sdp.sd_args.ar_spectator ≠ 0 then K.MS_RDONLY else 0)
        ||| K.MS_NOATIME ||| K.MS_NODIRATIME
    ∧ (∀ i : Nat, (gfs2_remount_fs K sdp flags).flags.testBit i =
        (flags.testBit i || K.MS_NOATIME.testBit i || K.MS_NODIRATIME.testBit i
          || (decide (sdp.sd_args.ar_spectator ≠ 0) && K.MS_RDONLY.testBit i)))
    ∧ (sdp.sd_args.ar_spectator ≠ 0 →
        (gfs2_remount_fs K sdp flags).flags &&& K.MS_RDONLY = K.MS_RDONLY) := by
  have h1 : (gfs2_remount_fs K sdp flags).flags =
      flags ||| (if sdp.sd_args.ar_spectator ≠ 0 then K.MS_RDONLY else 0)
        ||| K.MS_NOATIME ||| K.MS_NODIRATIME := by
    by_cases ha : flags &&& (K.MS_NOATIME ||| K.MS_NODIRATIME) = 0 <;>
      by_cases hs : sdp.sd_args.ar_spectator = 0 <;>
      by_cases hr : flags &&& K.MS_RDONLY = 0 <;>
      by_cases hf : sdp.sd_flags .SDF_ROFS = false <;>
      simp [gfs2_remount_fs, ha, hs, hr, hf, test_bit, write_bit, set_bit, clear_bit,
        atomic_inc_sd_ops_super, inc_ops_super, call, Nat.lor_assoc]
  refine ⟨h1, ?_, ?_⟩
  · intro i
    rw [h1]
    by_cases hs : sdp.sd_args.ar_spectator = 0 <;>
      simp [hs, Nat.testBit_lor, Bool.or_assoc, Bool.or_comm, Bool.or_left_comm]
  · intro hs
    rw [h1]
    apply Nat.eq_of_testBit_eq
    intro i
    simp only [hs, ne_eq, not_false_eq_true, if_true, Nat.testBit_and, Nat.testBit_lor]
    cases flags.testBit i <;> cases K.MS_RDONLY.testBit i <;>
      cases K.MS_NOATIME.testBit i <;> cases K.MS_NODIRATIME.testBit i <;> rfl

/-- C7 on a sample spectator asked for read-write (no flag bit set). -/
theorem remount_returned_flags_witness :
    (gfs2_remount_fs sample_collab sample_spectator_sbd 0).flags &&& sample_collab.MS_RDONLY
      = sample_collab.MS_RDONLY :=
  (remount_returned_flags sample_collab sample_spectator_sbd 0).2.2 (by decide)

/-- C8: `gfs2_remount_fs` calls the read-only transition exactly once when the
instance is not a spectator, read-only is requested and `SDF_ROFS` is clear;
the read-write transition exactly once when it is not a spectator, read-only
is not requested and `SDF_ROFS` is set; and no transition otherwise (so none
on a spectator).  It returns the error of the transition it called, and 0 when
it called none. -/
theorem remount_transition (K : Collab) (sdp : gfs2_sbd) (flags : Nat) :
    (gfs2_remount_fs K sdp flags).trace.countP is_make_fs_ro =
      (if sdp.sd_args.ar_spectator = 0 ∧ flags &&& K.MS_RDONLY ≠ 0
          ∧ sdp.sd_flags .SDF_ROFS = false then 1 else 0)
    ∧ (gfs2_remount_fs K sdp flags).trace.countP is_make_fs_rw =
      (if sdp.sd_args.ar_spectator = 0 ∧ flags &&& K.MS_RDONLY = 0
          ∧ sdp.sd_flags .SDF_ROFS = true then 1 else 0)
    ∧ (gfs2_remount_fs K sdp flags).error =
        ((gfs2_remount_fs K sdp flags).trace.filterMap transition_ret).headD 0
    ∧ (gfs2_remount_fs K sdp flags).error =
      (if sdp.sd_args.ar_spectator ≠ 0 then 0
       else if flags &&& K.MS_RDONLY ≠ 0 then
         (if sdp.sd_flags .SDF_ROFS = false then
            (K.gfs2_make_fs_ro (noatime_updated K sdp flags)).1 else 0)
       else
         (if sdp.sd_flags .SDF_ROFS = true then
            (K.gfs2_make_fs_rw (noatime_updated K sdp flags)).1 else 0)) := by
  by_cases ha : flags &&& (K.MS_NOATIME ||| K.MS_NODIRATIME) = 0 <;>
    by_cases hs : sdp.sd_args.ar_spectator = 0 <;>
    by_cases hr : flags &&& K.MS_RDONLY = 0 <;>
    by_cases hf : sdp.sd_flags .SDF_ROFS = false <;>
    simp [gfs2_remount_fs, ha, hs, hr, hf, test_bit, write_bit, set_bit, clear_bit,
      atomic_inc_sd_ops_super, inc_ops_super, call, noatime_updated, is_make_fs_ro,
      is_make_fs_rw, transition_ret]

/-! ## Statfs -/

/-- C9, as stated, fails: on a summary with more free blocks than blocks in
total (total 0, free 1, dinodes 0) `gfs2_statfs` succeeds and reports
`f_bfree = 1 > 0 = f_blocks`. -/
theorem statfs_free_above_total :
    (gfs2_statfs overfull_collab sample_sbd zero_kstatfs).1 = 0
    ∧ ¬ ((gfs2_statfs overfull_collab sample_sbd zero_kstatfs).2.1.f_bfree
          ≤ (gfs2_statfs overfull_collab sample_sbd zero_kstatfs).2.1.f_blocks) := by
  decide

/-- C9, amended: for every summary the allocator returns successfully,
`gfs2_statfs` returns 0 and reports `f_blocks = total`,
`f_bfree = f_bavail = f_ffree = free` and `f_files = (dinodes + free) mod 2^64`;
hence `f_ffree ≤ f_files + f_bfree` always, and `f_bfree ≤ f_blocks` exactly
when the summary has `free ≤ total`. -/
theorem statfs_report (K : Collab) (sdp : gfs2_sbd) (buf : kstatfs) (sg : struct_gfs2_statfs)
    (h : K.gfs2_statfs_i (inc_ops_super sdp) = (0, sg)) :
    (gfs2_statfs K sdp buf).1 = 0
    ∧ (gfs2_statfs K sdp buf).2.1.f_blocks = sg.sg_total
    ∧ (gfs2_statfs K sdp buf).2.1.f_bfree = sg.sg_free
    ∧ (gfs2_statfs K sdp buf).2.1.f_bavail = sg.sg_free
    ∧ (gfs2_statfs K sdp buf).2.1.f_files = (sg.sg_dinodes + sg.sg_free) % 2 ^ 64
    ∧ (gfs2_statfs K sdp buf).2.1.f_ffree = sg.sg_free
    ∧ (gfs2_statfs K sdp buf).2.1.f_ffree
        ≤ (gfs2_statfs K sdp buf).2.1.f_files + (gfs2_statfs K sdp buf).2.1.f_bfree
    ∧ ((gfs2_statfs K sdp buf).2.1.f_bfree ≤ (gfs2_statfs K sdp buf).2.1.f_blocks
        ↔ sg.sg_free ≤ sg.sg_total) := by
  simp [gfs2_statfs, h]

/-- C9 amended, on the sample allocator (100 blocks, 40 free, 10 dinodes). -/
theorem statfs_report_witness :
    (gfs2_statfs sample_collab sample_sbd zero_kstatfs).1 = 0
    ∧ (gfs2_statfs sample_collab sample_sbd zero_kstatfs).2.1.f_blocks = 100
    ∧ (gfs2_statfs sample_collab sample_sbd zero_kstatfs).2.1.f_bfree = 40
    ∧ (gfs2_statfs sample_collab sample_sbd zero_kstatfs).2.1.f_bavail = 40
    ∧ (gfs2_statfs sample_collab sample_sbd zero_kstatfs).2.1.f_files = (10 + 40) % 2 ^ 64
    ∧ (gfs2_statfs sample_collab sample_sbd zero_kstatfs).2.1.f_ffree = 40
    ∧ (gfs2_statfs sample_collab sample_sbd zero_kstatfs).2.1.f_ffree
        ≤ (gfs2_statfs sample_collab sample_sbd zero_kstatfs).2.1.f_files
          + (gfs2_statfs sample_collab sample_sbd zero_kstatfs).2.1.f_bfree
    ∧ ((gfs2_statfs sample_collab sample_sbd zero_kstatfs).2.1.f_bfree
          ≤ (gfs2_statfs sample_collab sample_sbd zero_kstatfs).2.1.f_blocks
        ↔ 40 ≤ 100) :=
  statfs_report sample_collab sample_sbd zero_kstatfs
    { sg_total := 100, sg_free := 40, sg_dinodes := 10 } rfl

/-! ## Inode detach -/

/-- C10, as stated, fails: on the sample inode, whose record has inode glock 11
and iopen glock 12, `gfs2_clear_inode` makes no schedule-for-reclaim call on
the iopen glock. -/
theorem clear_inode_skips_iopen :
    sample_inode.v2ip = some sample_ip
    ∧ Call.gfs2_glock_schedule_for_reclaim (.gl sample_ip.i_iopen_gl)
        ∉ (gfs2_clear_inode sample_sbd sample_inode).trace := by
  decide

/-- C10, amended: on a VFS inode with a record attached, `gfs2_clear_inode`
changes nothing in the super-block state but the op counter, detaches inode
and record from one another between taking and dropping the record's spin
lock, and then makes exactly one glock call: it schedules the record's inode
glock for reclaim.  It then puts the record.  The iopen glock is passed to no
call (unless it is the inode glock), and nothing is dequeued or put.  With no
record attached it makes no glock call at all. -/
theorem clear_inode_detaches (sdp : gfs2_sbd) (ino : Nat) (ip : gfs2_inode) :
    ({ (gfs2_clear_inode sdp { i_ino := ino, v2ip := some ip }).sdp with
        sd_ops_super := sdp.sd_ops_super } = sdp)
    ∧ (gfs2_clear_inode sdp { i_ino := ino, v2ip := some ip }).sdp.sd_ops_super
        = (sdp.sd_ops_super + 1) % 2 ^ 32
    ∧ (gfs2_clear_inode sdp { i_ino := ino, v2ip := some ip }).inode
        = { i_ino := ino, v2ip := none }
    ∧ (gfs2_clear_inode sdp { i_ino := ino, v2ip := some ip }).ip
        = some { ip with i_vnode := none }
    ∧ (gfs2_clear_inode sdp { i_ino := ino, v2ip := some ip }).trace =
        [Call.atomic_inc_sd_ops_super, Call.spin_lock_i_lock ip.i_num,
         Call.set_i_vnode_NULL ip.i_num, Call.set_v2ip_NULL ino,
         Call.spin_unlock_i_lock ip.i_num,
         Call.gfs2_glock_schedule_for_reclaim (.gl ip.i_gl),
         Call.gfs2_inode_put (.ip ip.i_num)]
    ∧ (gfs2_clear_inode sdp { i_ino := ino, v2ip := some ip }).trace.filter is_lock_call =
        [Call.gfs2_glock_schedule_for_reclaim (.gl ip.i_gl)]
    ∧ (Call.gfs2_glock_schedule_for_reclaim (.gl ip.i_iopen_gl)
          ∈ (gfs2_clear_inode sdp { i_ino := ino, v2ip := some ip }).trace
        ↔ ip.i_iopen_gl = ip.i_gl)
    ∧ (gfs2_clear_inode sdp { i_ino := ino, v2ip := none }).trace.filter is_lock_call = []
    ∧ ({ (gfs2_clear_inode sdp { i_ino := ino, v2ip := none }).sdp with
        sd_ops_super := sdp.sd_ops_super } = sdp) := by
  simp [gfs2_clear_inode, atomic_inc_sd_ops_super, inc_ops_super, call, is_lock_call]

end Gfs2
